import Mathlib

/-!
Shallow embedding of the mieru TCP underlay (pkg/protocolv2/underlay_tcp.go)
and the parts of its environment it depends on.  Pure Go functions become Lean
functions; stateful code becomes explicit state passing on structures; the
transport connection becomes an explicit byte stream (`List Nat`); the external
block-cipher primitive (out of scope of the sources) is passed in as an
explicit encrypt/decrypt function pair.
-/

namespace Mieru

/-- Modelled from the spec: the authentication-tag length added to every
ciphertext (`cipher.DefaultOverhead`, written `L_tag`); the cipher package is
not part of the sources, so a concrete value is fixed here. -/
def DefaultOverhead : Nat := 16

/-- Modelled from the spec: the nonce length prepended to the first ciphertext
of a connection (`cipher.DefaultNonceSize`, written `L_nonce`). -/
def DefaultNonceSize : Nat := 12

/-- Modelled from the spec: the fixed length `L_meta` of a marshalled metadata
block (`metadataLength`). -/
def metadataLength : Nat := 32

/-- Modelled from the spec: the externally observable state of a block-cipher
handle: a key identity, a per-handle nonce counter, the implicit-nonce mode
flag and the stateless flag. -/
structure CipherState where
  keyId : Nat
  nonceCtr : Nat
  implicitNonce : Bool
  stateless : Bool
deriving DecidableEq, Repr

/-- Modelled from the spec: `IsStateless` of the cipher contract. -/
def CipherState.IsStateless (c : CipherState) : Bool := c.stateless

/-- Modelled from the spec: `Clone` preserves the key but gives the handle its
own nonce counter, reset to the starting point. -/
def CipherState.Clone (c : CipherState) : CipherState :=
  { c with nonceCtr := 0 }

/-- Modelled from the spec: `SetImplicitNonceMode`; switching the mode off
clears the stored implicit nonce, so the off/on cycle used by the server
resets the nonce counter to a known starting point. -/
def CipherState.SetImplicitNonceMode (c : CipherState) (b : Bool) : CipherState :=
  if b then { c with implicitNonce := true }
  else { c with implicitNonce := false, nonceCtr := 0 }

/-- Shape of the external `Encrypt` operation of the cipher contract: it
consumes the handle state and the plaintext and either fails or returns the
ciphertext together with the advanced handle state. -/
def EncFn : Type := CipherState → List Nat → Option (List Nat × CipherState)

/-- Shape of the external `Decrypt` operation of the cipher contract. -/
def DecFn : Type := CipherState → List Nat → Option (List Nat × CipherState)

/-- Big-endian byte encoding of a 32-bit field. -/
def u32Bytes (n : Nat) : List Nat :=
  [n / 16777216 % 256, n / 65536 % 256, n / 256 % 256, n % 256]

/-- Big-endian byte encoding of a 16-bit field. -/
def u16Bytes (n : Nat) : List Nat :=
  [n / 256 % 256, n % 256]

/-- Big-endian 32-bit field read starting at offset `i`. -/
def bytesToU32 (b : List Nat) (i : Nat) : Nat :=
  b.getD i 0 * 16777216 + b.getD (i + 1) 0 * 65536 + b.getD (i + 2) 0 * 256 + b.getD (i + 3) 0

/-- Big-endian 16-bit field read starting at offset `i`. -/
def bytesToU16 (b : List Nat) (i : Nat) : Nat :=
  b.getD i 0 * 256 + b.getD (i + 1) 0

/-- Modelled from the spec: protocol tag of an open-session request. -/
def openSessionRequest : Nat := 0

/-- Modelled from the spec: protocol tag of an open-session response. -/
def openSessionResponse : Nat := 1

/-- Modelled from the spec: protocol tag of a close-session request. -/
def closeSessionRequest : Nat := 2

/-- Modelled from the spec: protocol tag of a close-session response. -/
def closeSessionResponse : Nat := 3

/-- Modelled from the spec: protocol tag of a close-connection request. -/
def closeConnRequest : Nat := 4

/-- Modelled from the spec: protocol tag of a close-connection response. -/
def closeConnResponse : Nat := 5

/-- Modelled from the spec: protocol tag of client-to-server data. -/
def dataClientToServer : Nat := 6

/-- Modelled from the spec: protocol tag of server-to-client data. -/
def dataServerToClient : Nat := 7

/-- Modelled from the spec: protocol tag of a client-to-server acknowledgement. -/
def ackClientToServer : Nat := 8

/-- Modelled from the spec: protocol tag of a server-to-client acknowledgement. -/
def ackServerToClient : Nat := 9

/-- Modelled from the spec: `isSessionProtocol` holds exactly for the six
session-control protocol tags. -/
def isSessionProtocol (p : Nat) : Bool :=
  p == openSessionRequest || p == openSessionResponse ||
  p == closeSessionRequest || p == closeSessionResponse ||
  p == closeConnRequest || p == closeConnResponse

/-- Modelled from the spec: `isDataAckProtocol` holds exactly for the data and
acknowledgement protocol tags. -/
def isDataAckProtocol (p : Nat) : Bool :=
  p == dataClientToServer || p == dataServerToClient ||
  p == ackClientToServer || p == ackServerToClient

/-- Modelled from the spec: the fixed-length session-control metadata
structure (`sessionStruct`). -/
structure sessionStruct where
  protocol : Nat
  sessionID : Nat
  seq : Nat
  payloadLen : Nat
  suffixLen : Nat
  flags : Nat
deriving DecidableEq, Repr

/-- Modelled from the spec: `sessionStruct.Marshal` produces the fixed-length
`metadataLength`-byte block whose first byte is the protocol tag. -/
def sessionStruct.Marshal (ss : sessionStruct) : List Nat :=
  [ss.protocol % 256] ++ u32Bytes ss.sessionID ++ u32Bytes ss.seq ++
    u16Bytes ss.payloadLen ++ [ss.suffixLen % 256] ++ [ss.flags % 256] ++
    List.replicate 19 0

/-- Modelled from the spec: `sessionStruct.Unmarshal` decodes a block of
exactly `metadataLength` bytes whose first byte is a session-control tag. -/
def sessionStruct.Unmarshal (b : List Nat) : Option sessionStruct :=
  if b.length == metadataLength && isSessionProtocol (b.headD 0) then
    some { protocol := b.headD 0, sessionID := bytesToU32 b 1, seq := bytesToU32 b 5,
           payloadLen := bytesToU16 b 9, suffixLen := b.getD 11 0, flags := b.getD 12 0 }
  else none

/-- Modelled from the spec: the fixed-length data-ack metadata structure
(`dataAckStruct`). -/
structure dataAckStruct where
  protocol : Nat
  sessionID : Nat
  seq : Nat
  ack : Nat
  windowSize : Nat
  prefixLen : Nat
  payloadLen : Nat
  suffixLen : Nat
deriving DecidableEq, Repr

/-- Modelled from the spec: `dataAckStruct.Marshal`. -/
def dataAckStruct.Marshal (das : dataAckStruct) : List Nat :=
  [das.protocol % 256] ++ u32Bytes das.sessionID ++ u32Bytes das.seq ++
    u32Bytes das.ack ++ u16Bytes das.windowSize ++ [das.prefixLen % 256] ++
    u16Bytes das.payloadLen ++ [das.suffixLen % 256] ++ List.replicate 13 0

/-- Modelled from the spec: `dataAckStruct.Unmarshal`. -/
def dataAckStruct.Unmarshal (b : List Nat) : Option dataAckStruct :=
  if b.length == metadataLength && isDataAckProtocol (b.headD 0) then
    some { protocol := b.headD 0, sessionID := bytesToU32 b 1, seq := bytesToU32 b 5,
           ack := bytesToU32 b 9, windowSize := bytesToU16 b 13, prefixLen := b.getD 15 0,
           payloadLen := bytesToU16 b 16, suffixLen := b.getD 18 0 }
  else none

/-- Modelled from the spec: the `metadata` interface value carried by a
segment.  The sources only ever build the two concrete structs, but the Go
interface admits other implementations, represented by `other`. -/
inductive Metadata where
  | session (ss : sessionStruct)
  | dataAck (das : dataAckStruct)
  | other (protocol : Nat)
deriving DecidableEq, Repr

/-- Protocol tag of a metadata value. -/
def Metadata.Protocol : Metadata → Nat
  | .session ss => ss.protocol
  | .dataAck das => das.protocol
  | .other p => p

/-- Modelled from the spec: `toSessionStruct`, the checked type assertion of a
metadata value to `sessionStruct`. -/
def toSessionStruct : Metadata → Option sessionStruct
  | .session ss => some ss
  | _ => none

/-- Modelled from the spec: `toDataAckStruct`. -/
def toDataAckStruct : Metadata → Option dataAckStruct
  | .dataAck das => some das
  | _ => none

/-- The framed unit handed between the underlay and the sessions
(`segment` of the sources). -/
structure segment where
  metadata : Metadata
  payload : List Nat
deriving DecidableEq, Repr

/-- Protocol tag of a segment (`segment.Protocol`). -/
def segment.Protocol (s : segment) : Nat := s.metadata.Protocol

/-- Modelled from the spec: the process-wide replay cache together with the
two replay metrics counters.  The cache is modelled as the set of recorded tag
prefixes; the byte-capacity bound and the time window are elided. -/
structure ReplayState where
  cache : List (List Nat)
  newSession : Nat
  knownSession : Nat
deriving DecidableEq, Repr

/-- Modelled from the spec: `replay.Cache.IsDuplicate` reports whether the tag
prefix was seen before and records it. -/
def ReplayState.isDuplicate (rs : ReplayState) (tag : List Nat) : Bool × ReplayState :=
  (rs.cache.contains tag, { rs with cache := tag :: rs.cache })

/-- Modelled from the spec: the session object, reduced to the attributes the
underlay touches: identity, role, MTU, the inbox queue `recvChan` and the
readiness latch. -/
structure Session where
  id : Nat
  isClient : Bool
  mtu : Nat
  recvChan : List segment
  ready : Bool
deriving DecidableEq, Repr

/-- Modelled from the spec: `NewSession` allocates a fresh session object. -/
def NewSession (id : Nat) (isClient : Bool) (mtu : Nat) : Session :=
  { id := id, isClient := isClient, mtu := mtu, recvChan := [], ready := false }

/-- State of a TCP underlay: role, MTU, transport-connection presence and
closed flag, `done` latch, lazily initialized send and receive ciphers, the
candidate cipher list, the session table and the queue of newly accepted
session IDs (`readySessions`). -/
structure TCPUnderlay where
  isClient : Bool
  mtu : Nat
  hasConn : Bool
  connClosed : Bool
  done : Bool
  send : Option CipherState
  recv : Option CipherState
  candidates : List CipherState
  sessionMap : List (Nat × Session)
  readySessions : List Nat
deriving DecidableEq, Repr

/-- Session-table lookup (`t.sessionMap[sessionID]`). -/
def lookupSession (m : List (Nat × Session)) (sid : Nat) : Option Session :=
  (m.find? (fun e => e.1 == sid)).map (fun e => e.2)

/-- Push a segment onto the `recvChan` of the session registered under `sid`
(`session.recvChan <- seg`). -/
def deliverToSession (t : TCPUnderlay) (sid : Nat) (seg : segment) : TCPUnderlay :=
  { t with sessionMap := t.sessionMap.map (fun e =>
      if e.1 == sid then (e.1, { e.2 with recvChan := e.2.recvChan ++ [seg] }) else e) }

/-- Modelled from the spec: `TCPUnderlay.AddSession` registers the session in
the table and closes its readiness latch; the spawning of the session's two
loops is elided. -/
def TCPUnderlay.AddSession (t : TCPUnderlay) (s : Session) : TCPUnderlay :=
  { t with sessionMap := t.sessionMap ++ [(s.id, { s with ready := true })] }

/-- Embedding of `TCPUnderlay.Close` (underlay_tcp.go lines 94 to 104): a
no-op when the `done` latch is already closed, otherwise it closes the latch
(the base-underlay close, modelled from the spec) and the transport. -/
def TCPUnderlay.Close (t : TCPUnderlay) : TCPUnderlay :=
  if t.done then t else { t with done := true, connClosed := true }

/-- Embedding of `TCPUnderlay.RemoveSession` (underlay_tcp.go lines 153 to
159): remove the session from the table (base removal modelled from the spec)
and close the underlay when the table became empty. -/
def TCPUnderlay.RemoveSession (t : TCPUnderlay) (sid : Nat) : TCPUnderlay :=
  let t1 : TCPUnderlay := { t with sessionMap := t.sessionMap.filter (fun e => e.1 != sid) }
  if t1.sessionMap.isEmpty then t1.Close else t1

/-- Network argument of `NewTCPUnderlay`, reduced to the cases the source
switch distinguishes. -/
inductive NetKind where
  | tcp | tcp4 | tcp6 | unsupported
deriving DecidableEq, Repr

/-- Errors of `NewTCPUnderlay` that occur before any dialing. -/
inductive NewTCPErr where
  | unsupportedNetwork | statelessCipher
deriving DecidableEq, Repr

/-- Result of `NewTCPUnderlay`; the `ok` outcome stands for proceeding to dial
the transport (external) and returning the constructed underlay. -/
inductive NewTCPResult where
  | ok (t : TCPUnderlay)
  | err (e : NewTCPErr)
deriving DecidableEq, Repr

/-- Embedding of `NewTCPUnderlay` (underlay_tcp.go lines 57 to 85): validate
the network, reject stateless block ciphers, then dial (external) and build a
client underlay whose candidate list is the single given cipher. -/
def NewTCPUnderlay (network : NetKind) (mtu : Nat) (block : CipherState) : NewTCPResult :=
  match network with
  | .unsupported => .err .unsupportedNetwork
  | _ =>
    if block.IsStateless then .err .statelessCipher
    else .ok { isClient := true, mtu := mtu, hasConn := true, connClosed := false,
               done := false, send := none, recv := none, candidates := [block],
               sessionMap := [], readySessions := [] }

/-- Errors of the segment-read path. -/
inductive ReadErr where
  | ioFailed
  | replayDetected
  | selectDecryptFailed
  | decryptFailed
  | framingError
  | unmarshalFailed
  | unknownProtocol (p : Nat)
  | emptyCandidates
deriving DecidableEq, Repr

/-- Result of the segment-read path: either a segment together with the
updated underlay, replay state and remaining input, or an error together with
the states at the point of failure. -/
inductive ReadResult where
  | ok (seg : segment) (t : TCPUnderlay) (rs : ReplayState) (rest : List Nat)
  | err (e : ReadErr) (t : TCPUnderlay) (rs : ReplayState)
deriving DecidableEq, Repr

/-- Embedding of `readSessionSegment` (underlay_tcp.go lines 336 to 364): read
and decrypt the payload when `payloadLen > 0` (with the diagnostic replay
query), then read and discard the suffix padding. -/
def readSessionSegment (dec : DecFn) (t : TCPUnderlay) (rs : ReplayState)
    (ss : sessionStruct) (input : List Nat) : ReadResult :=
  if ss.payloadLen > 0 then
    let n := ss.payloadLen + DefaultOverhead
    if input.length < n then .err .ioFailed t rs
    else
      let encryptedPayload := input.take n
      let rest := input.drop n
      let dr := rs.isDuplicate (encryptedPayload.take DefaultOverhead)
      let rs1 := if dr.1 then { dr.2 with knownSession := dr.2.knownSession + 1 } else dr.2
      match t.recv with
      | none => .err .decryptFailed t rs1
      | some c =>
        match dec c encryptedPayload with
        | none => .err .decryptFailed t rs1
        | some pc =>
          let t1 := { t with recv := some pc.2 }
          if rest.length < ss.suffixLen then .err .ioFailed t1 rs1
          else .ok { metadata := .session ss, payload := pc.1 } t1 rs1 (rest.drop ss.suffixLen)
  else
    if input.length < ss.suffixLen then .err .ioFailed t rs
    else .ok { metadata := .session ss, payload := [] } t rs (input.drop ss.suffixLen)

/-- Embedding of `readDataAckSegment` (underlay_tcp.go lines 366 to 400): read
and discard the prefix padding, read and decrypt the payload when
`payloadLen > 0` (with the diagnostic replay query), then read and discard the
suffix padding. -/
def readDataAckSegment (dec : DecFn) (t : TCPUnderlay) (rs : ReplayState)
    (das : dataAckStruct) (input : List Nat) : ReadResult :=
  if input.length < das.prefixLen then .err .ioFailed t rs
  else
    let afterPre := input.drop das.prefixLen
    if das.payloadLen > 0 then
      let n := das.payloadLen + DefaultOverhead
      if afterPre.length < n then .err .ioFailed t rs
      else
        let encryptedPayload := afterPre.take n
        let rest := afterPre.drop n
        let dr := rs.isDuplicate (encryptedPayload.take DefaultOverhead)
        let rs1 := if dr.1 then { dr.2 with knownSession := dr.2.knownSession + 1 } else dr.2
        match t.recv with
        | none => .err .decryptFailed t rs1
        | some c =>
          match dec c encryptedPayload with
          | none => .err .decryptFailed t rs1
          | some pc =>
            let t1 := { t with recv := some pc.2 }
            if rest.length < das.suffixLen then .err .ioFailed t1 rs1
            else .ok { metadata := .dataAck das, payload := pc.1 } t1 rs1 (rest.drop das.suffixLen)
    else
      if afterPre.length < das.suffixLen then .err .ioFailed t rs
      else .ok { metadata := .dataAck das, payload := [] } t rs (afterPre.drop das.suffixLen)

/-- Embedding of the tail of `readOneSegment` (underlay_tcp.go lines 313 to
333): reject a decrypted metadata block of the wrong length, then decode it by
its protocol tag, rejecting tags of neither protocol class. -/
def dispatchMetadata (dec : DecFn) (t : TCPUnderlay) (rs : ReplayState)
    (decryptedMeta rest : List Nat) : ReadResult :=
  if decryptedMeta.length != metadataLength then .err .framingError t rs
  else
    let p := decryptedMeta.headD 0
    if isSessionProtocol p then
      match sessionStruct.Unmarshal decryptedMeta with
      | none => .err .unmarshalFailed t rs
      | some ss => readSessionSegment dec t rs ss rest
    else if isDataAckProtocol p then
      match dataAckStruct.Unmarshal decryptedMeta with
      | none => .err .unmarshalFailed t rs
      | some das => readDataAckSegment dec t rs das rest
    else .err (.unknownProtocol p) t rs

/-- Decrypt the metadata block with the given receive cipher, store the
advanced cipher state, and hand over to `dispatchMetadata` (underlay_tcp.go
lines 307 to 312). -/
def decryptWith (dec : DecFn) (t : TCPUnderlay) (c : CipherState) (rs : ReplayState)
    (encryptedMeta rest : List Nat) : ReadResult :=
  match dec c encryptedMeta with
  | none => .err .decryptFailed t rs
  | some pc => dispatchMetadata dec { t with recv := some pc.2 } rs pc.1 rest

/-- Modelled from the spec: `cipher.SelectDecrypt` tries each candidate in
turn and returns the first that authenticates, with the decrypted block. -/
def SelectDecrypt (dec : DecFn) (ct : List Nat) :
    List CipherState → Option (CipherState × List Nat)
  | [] => none
  | c :: restC =>
    match dec c ct with
    | some pc => some (pc.2, pc.1)
    | none => SelectDecrypt dec ct restC

/-- Modelled from the spec: `cipher.CloneBlockCiphers`. -/
def CloneBlockCiphers (l : List CipherState) : List CipherState :=
  l.map CipherState.Clone

/-- Embedding of the decryption stage of `readOneSegment` (underlay_tcp.go
lines 295 to 312): an uninitialized client receive cipher is cloned from the
sole candidate (the source indexes `candidates[0]`, a panic on an empty list,
modelled as an error); an uninitialized server receive cipher is selected by
trial decryption over cloned candidates. -/
def decryptMetadata (dec : DecFn) (t : TCPUnderlay) (rs : ReplayState)
    (encryptedMeta rest : List Nat) : ReadResult :=
  if t.recv.isNone && t.isClient then
    match t.candidates with
    | [] => .err .emptyCandidates t rs
    | c :: _ => decryptWith dec { t with recv := some c.Clone } c.Clone rs encryptedMeta rest
  else
    match t.recv with
    | some c => decryptWith dec t c rs encryptedMeta rest
    | none =>
      match SelectDecrypt dec encryptedMeta (CloneBlockCiphers t.candidates) with
      | none => .err .selectDecryptFailed t rs
      | some pd => dispatchMetadata dec { t with recv := some pd.1.Clone } rs pd.2 rest

/-- Embedding of `readOneSegment` (underlay_tcp.go lines 271 to 334): read the
encrypted metadata (including the nonce exactly on the first read), query the
replay cache with the first `DefaultOverhead` bytes of the read buffer, fail
on a first-read duplicate, count a later-read duplicate, then decrypt and
decode. -/
def readOneSegment (dec : DecFn) (t : TCPUnderlay) (rs : ReplayState)
    (input : List Nat) : ReadResult :=
  let firstRead := t.recv.isNone
  let readLen := metadataLength + DefaultOverhead + (if firstRead then DefaultNonceSize else 0)
  if input.length < readLen then .err .ioFailed t rs
  else
    let encryptedMeta := input.take readLen
    let rest := input.drop readLen
    let dr := rs.isDuplicate (encryptedMeta.take DefaultOverhead)
    if dr.1 && firstRead then
      .err .replayDetected t { dr.2 with newSession := dr.2.newSession + 1 }
    else
      let rs1 := if dr.1 then { dr.2 with knownSession := dr.2.knownSession + 1 } else dr.2
      decryptMetadata dec t rs1 encryptedMeta rest

/-- Errors of the session-control handlers. -/
inductive HandlerErr where
  | invalidOperation
  | typeAssertFailed
  | reservedSessionID
  | sessionIDInUse
  | sessionNotFound
deriving DecidableEq, Repr

/-- Result of a session-control handler. -/
inductive HandlerResult where
  | ok (t : TCPUnderlay)
  | err (e : HandlerErr)
deriving DecidableEq, Repr

/-- Embedding of `onOpenSessionRequest` (underlay_tcp.go lines 216 to 238):
server-only; reject session ID 0 and IDs already in the table; otherwise
create the session, register it, hand it the triggering segment and publish it
on `readySessions`.  The Go type assertion on the metadata is modelled as a
checked assertion error. -/
def onOpenSessionRequest (t : TCPUnderlay) (seg : segment) : HandlerResult :=
  if t.isClient then .err .invalidOperation
  else
    match toSessionStruct seg.metadata with
    | none => .err .typeAssertFailed
    | some ss =>
      if ss.sessionID == 0 then .err .reservedSessionID
      else if (lookupSession t.sessionMap ss.sessionID).isSome then .err .sessionIDInUse
      else
        let s := NewSession ss.sessionID t.isClient t.mtu
        let t1 := t.AddSession s
        let t2 := deliverToSession t1 ss.sessionID seg
        .ok { t2 with readySessions := t2.readySessions ++ [ss.sessionID] }

/-- Embedding of `onOpenSessionResponse` (underlay_tcp.go lines 240 to 254):
client-only; an unknown session ID is an error, otherwise the segment goes to
the session's inbox. -/
def onOpenSessionResponse (t : TCPUnderlay) (seg : segment) : HandlerResult :=
  if !t.isClient then .err .invalidOperation
  else
    match toSessionStruct seg.metadata with
    | none => .err .typeAssertFailed
    | some ss =>
      match lookupSession t.sessionMap ss.sessionID with
      | none => .err .sessionNotFound
      | some _ => .ok (deliverToSession t ss.sessionID seg)

/-- Embedding of `onCloseSession` (underlay_tcp.go lines 256 to 269): an
unknown session ID is an error; otherwise the segment goes to the session's
inbox, the session's loops are awaited (elided) and the session is removed. -/
def onCloseSession (t : TCPUnderlay) (seg : segment) : HandlerResult :=
  match toSessionStruct seg.metadata with
  | none => .err .typeAssertFailed
  | some ss =>
    match lookupSession t.sessionMap ss.sessionID with
    | none => .err .sessionNotFound
    | some _ => (deliverToSession t ss.sessionID seg).RemoveSession ss.sessionID |> .ok

/-- Errors terminating the event loop. -/
inductive LoopErr where
  | readFailed (e : ReadErr)
  | openSessionRequestFailed (e : HandlerErr)
  | openSessionResponseFailed (e : HandlerErr)
  | closeSessionFailed (e : HandlerErr)
  | nilMetadata
deriving DecidableEq, Repr

/-- Outcome of one iteration of the event loop: clean exit on cancellation,
exit with an error, or continue with the updated states and remaining
input. -/
inductive StepResult where
  | exitOk (t : TCPUnderlay) (rs : ReplayState)
  | exitErr (e : LoopErr) (t : TCPUnderlay) (rs : ReplayState)
  | next (t : TCPUnderlay) (rs : ReplayState) (rest : List Nat)
deriving DecidableEq, Repr

/-- Embedding of one iteration of `RunEventLoop` (underlay_tcp.go lines 166 to
213): check cancellation, read one segment (an error terminates the loop),
dispatch session-control segments to their handlers (a handler error
terminates the loop; `closeConnRequest`, `closeConnResponse` and unknown
session-class tags are ignored), and route data-ack segments to the addressed
session, dropping them when the session is unknown.  The source dereferences
the data-ack struct unconditionally; a non-data-ack metadata there would be a
nil-pointer panic, modelled as `nilMetadata`. -/
def runEventLoopStep (dec : DecFn) (ctxDone : Bool) (t : TCPUnderlay)
    (rs : ReplayState) (input : List Nat) : StepResult :=
  if ctxDone || t.done then .exitOk t rs
  else
    match readOneSegment dec t rs input with
    | .err e t1 rs1 => .exitErr (.readFailed e) t1 rs1
    | .ok seg t1 rs1 rest =>
      if isSessionProtocol seg.metadata.Protocol then
        if seg.Protocol == openSessionRequest then
          match onOpenSessionRequest t1 seg with
          | .err e => .exitErr (.openSessionRequestFailed e) t1 rs1
          | .ok t2 => .next t2 rs1 rest
        else if seg.Protocol == openSessionResponse then
          match onOpenSessionResponse t1 seg with
          | .err e => .exitErr (.openSessionResponseFailed e) t1 rs1
          | .ok t2 => .next t2 rs1 rest
        else if seg.Protocol == closeSessionRequest || seg.Protocol == closeSessionResponse then
          match onCloseSession t1 seg with
          | .err e => .exitErr (.closeSessionFailed e) t1 rs1
          | .ok t2 => .next t2 rs1 rest
        else .next t1 rs1 rest
      else if isDataAckProtocol seg.metadata.Protocol then
        match toDataAckStruct seg.metadata with
        | none => .exitErr .nilMetadata t1 rs1
        | some das =>
          match lookupSession t1.sessionMap das.sessionID with
          | none => .next t1 rs1 rest
          | some _ => .next (deliverToSession t1 das.sessionID seg) rs1 rest
      else .next t1 rs1 rest

/-- Errors of `maybeInitSendBlockCipher`. -/
inductive SendInitErr where
  | emptyCandidates
  | recvCipherNil
deriving DecidableEq, Repr

/-- Result of `maybeInitSendBlockCipher`. -/
inductive InitResult where
  | ok (t : TCPUnderlay)
  | err (e : SendInitErr)
deriving DecidableEq, Repr

/-- Embedding of `maybeInitSendBlockCipher` (underlay_tcp.go lines 469 to
485): a no-op when the send cipher exists; a client clones the sole candidate
(the source indexes `candidates[0]`, a panic on an empty list, modelled as an
error); a server derives the send cipher from the receive cipher by cloning
and cycling implicit-nonce mode off and on, and fails when the receive cipher
is still nil. -/
def maybeInitSendBlockCipher (t : TCPUnderlay) : InitResult :=
  if t.send.isSome then .ok t
  else if t.isClient then
    match t.candidates with
    | [] => .err .emptyCandidates
    | c :: _ => .ok { t with send := some c.Clone }
  else
    match t.recv with
    | some r => .ok { t with send := some ((r.Clone.SetImplicitNonceMode false).SetImplicitNonceMode true) }
    | none => .err .recvCipherNil

/-- Modelled from the spec: `newPadding` produces random padding of the given
length; the byte content is irrelevant to every claim and is fixed to zero. -/
def newPadding (n : Nat) : List Nat := List.replicate n 0

/-- Errors of `writeOneSegment`. -/
inductive WriteErr where
  | nullPointer
  | invalidArgument
  | sendInitFailed (e : SendInitErr)
  | nilSendCipher
  | encryptFailed
deriving DecidableEq, Repr

/-- Result of `writeOneSegment`: on success the updated underlay and the exact
byte string handed to the transport in the single write call; on error the
underlay at the point of failure, with no bytes handed to the transport. -/
inductive WriteResult where
  | ok (t : TCPUnderlay) (written : List Nat)
  | err (e : WriteErr) (t : TCPUnderlay)
deriving DecidableEq, Repr

/-- Embedding of `writeOneSegment` (underlay_tcp.go lines 402 to 467).  The
two draws of `rng.Intn(255)` are passed in as `r1` and `r2` (`r1` is the
suffix length of a session-control segment and the prefix length of a
data-ack segment, `r2` the suffix length of a data-ack segment); they are
recorded in the metadata, the metadata is marshalled and encrypted, the
payload is encrypted when non-empty, and the concatenation with the padding is
handed to the transport in one write. -/
def writeOneSegment (enc : EncFn) (t : TCPUnderlay) (seg : Option segment)
    (r1 r2 : Fin 255) : WriteResult :=
  match seg with
  | none => .err .nullPointer t
  | some sg =>
    match toSessionStruct sg.metadata with
    | some ss0 =>
      let ss := { ss0 with suffixLen := r1.val }
      let padding := newPadding r1.val
      let plaintextMetadata := ss.Marshal
      match maybeInitSendBlockCipher t with
      | .err e => .err (.sendInitFailed e) t
      | .ok t1 =>
        match t1.send with
        | none => .err .nilSendCipher t1
        | some c =>
          match enc c plaintextMetadata with
          | none => .err .encryptFailed t1
          | some mc =>
            let t2 := { t1 with send := some mc.2 }
            if sg.payload.length > 0 then
              match enc mc.2 sg.payload with
              | none => .err .encryptFailed t2
              | some pc =>
                .ok { t2 with send := some pc.2 } (mc.1 ++ pc.1 ++ padding)
            else
              .ok t2 (mc.1 ++ padding)
    | none =>
      match toDataAckStruct sg.metadata with
      | some das0 =>
        let das := { das0 with prefixLen := r1.val, suffixLen := r2.val }
        let padding1 := newPadding r1.val
        let padding2 := newPadding r2.val
        let plaintextMetadata := das.Marshal
        match maybeInitSendBlockCipher t with
        | .err e => .err (.sendInitFailed e) t
        | .ok t1 =>
          match t1.send with
          | none => .err .nilSendCipher t1
          | some c =>
            match enc c plaintextMetadata with
            | none => .err .encryptFailed t1
            | some mc =>
              let t2 := { t1 with send := some mc.2 }
              if sg.payload.length > 0 then
                match enc mc.2 sg.payload with
                | none => .err .encryptFailed t2
                | some pc =>
                  .ok { t2 with send := some pc.2 } (mc.1 ++ padding1 ++ pc.1 ++ padding2)
              else
                .ok t2 (mc.1 ++ padding1 ++ padding2)
      | none => .err .invalidArgument t

/-- Concrete underlay with an initialized send cipher (C6 witness fixture). -/
def W6a : TCPUnderlay :=
  { isClient := true, mtu := 1, hasConn := true, connClosed := false, done := false,
    send := some { keyId := 3, nonceCtr := 4, implicitNonce := true, stateless := false },
    recv := none, candidates := [], sessionMap := [], readySessions := [] }

/-- Concrete client underlay with one candidate (C6 witness fixture). -/
def W6b : TCPUnderlay :=
  { isClient := true, mtu := 1, hasConn := true, connClosed := false, done := false,
    send := none, recv := none,
    candidates := [{ keyId := 5, nonceCtr := 9, implicitNonce := true, stateless := false }],
    sessionMap := [], readySessions := [] }

/-- Concrete server underlay with an initialized receive cipher (C6 witness
fixture). -/
def W6c : TCPUnderlay :=
  { isClient := false, mtu := 1, hasConn := true, connClosed := false, done := false,
    send := none,
    recv := some { keyId := 7, nonceCtr := 2, implicitNonce := true, stateless := false },
    candidates := [], sessionMap := [], readySessions := [] }

/-- Concrete server underlay with no receive cipher (C6 witness fixture). -/
def W6d : TCPUnderlay :=
  { isClient := false, mtu := 1, hasConn := true, connClosed := false, done := false,
    send := none, recv := none, candidates := [], sessionMap := [], readySessions := [] }

/-- Concrete encrypt function: append a tag of the key id, bump the nonce
counter (C5 witness fixture). -/
def W5enc : EncFn := fun c pt =>
  some (pt ++ List.replicate DefaultOverhead c.keyId, { c with nonceCtr := c.nonceCtr + 1 })

/-- Concrete send cipher (C5 witness fixture). -/
def W5c : CipherState := { keyId := 2, nonceCtr := 0, implicitNonce := true, stateless := false }

/-- Send cipher after one encryption (C5 witness fixture). -/
def W5c1 : CipherState := { keyId := 2, nonceCtr := 1, implicitNonce := true, stateless := false }

/-- Send cipher after two encryptions (C5 witness fixture). -/
def W5c2 : CipherState := { keyId := 2, nonceCtr := 2, implicitNonce := true, stateless := false }

/-- Concrete underlay with initialized send cipher (C5 witness fixture). -/
def W5t : TCPUnderlay :=
  { isClient := true, mtu := 1500, hasConn := true, connClosed := false, done := false,
    send := some W5c, recv := none, candidates := [W5c], sessionMap := [], readySessions := [] }

/-- Concrete session-control metadata (C5 witness fixture). -/
def W5ss : sessionStruct :=
  { protocol := openSessionRequest, sessionID := 1, seq := 0, payloadLen := 3, suffixLen := 0, flags := 0 }

/-- Concrete data-ack metadata (C5 witness fixture). -/
def W5das : dataAckStruct :=
  { protocol := dataClientToServer, sessionID := 1, seq := 0, ack := 0, windowSize := 0,
    prefixLen := 0, payloadLen := 2, suffixLen := 0 }

/-- Session segment with payload (C5 witness fixture). -/
def W5sgA : segment := { metadata := .session W5ss, payload := [1, 2, 3] }

/-- Session segment without payload (C5 witness fixture). -/
def W5sgB : segment := { metadata := .session W5ss, payload := [] }

/-- Data-ack segment with payload (C5 witness fixture). -/
def W5sgC : segment := { metadata := .dataAck W5das, payload := [4, 5] }

/-- Data-ack segment without payload (C5 witness fixture). -/
def W5sgD : segment := { metadata := .dataAck W5das, payload := [] }

/-- Encrypted session metadata (C5 witness fixture). -/
def W5emA : List Nat := sessionStruct.Marshal { W5ss with suffixLen := 5 } ++ List.replicate 16 2

/-- Encrypted session payload (C5 witness fixture). -/
def W5ep : List Nat := [1, 2, 3] ++ List.replicate 16 2

/-- Encrypted data-ack metadata (C5 witness fixture). -/
def W5emC : List Nat := dataAckStruct.Marshal { W5das with prefixLen := 5, suffixLen := 7 } ++ List.replicate 16 2

/-- Encrypted data-ack payload (C5 witness fixture). -/
def W5epC : List Nat := [4, 5] ++ List.replicate 16 2

/-- Concrete decrypt function stripping a leading tag (C1 witness fixture). -/
def W1dec : DecFn := fun c ct => some (ct.drop DefaultOverhead, c)

/-- Concrete candidate cipher (C1 witness fixture). -/
def W1c : CipherState := { keyId := 1, nonceCtr := 0, implicitNonce := true, stateless := false }

/-- Concrete underlay before its first read (C1 witness fixture). -/
def W1t1 : TCPUnderlay :=
  { isClient := false, mtu := 9, hasConn := true, connClosed := false, done := false,
    send := none, recv := none, candidates := [W1c], sessionMap := [], readySessions := [] }

/-- Concrete underlay with initialized receive cipher (C1 witness fixture). -/
def W1t2 : TCPUnderlay := { W1t1 with recv := some W1c }

/-- Concrete input whose tag prefix is already cached (C1 witness fixture). -/
def W1input : List Nat := List.replicate 60 7

/-- Replay state already holding the tag prefix (C1 witness fixture). -/
def W1rs : ReplayState := { cache := [List.replicate 16 7], newSession := 0, knownSession := 0 }

/-- Concrete decrypt function returning a 31-byte block on a 48-byte
ciphertext (C7 witness fixture). -/
def W7dec : DecFn := fun c ct => some (ct.drop 17, c)

/-- Concrete candidate cipher (C7 witness fixture). -/
def W7c : CipherState := { keyId := 4, nonceCtr := 6, implicitNonce := true, stateless := false }

/-- Underlay before first read (C7 witness fixture). -/
def W7tA : TCPUnderlay :=
  { isClient := false, mtu := 9, hasConn := true, connClosed := false, done := false,
    send := none, recv := none, candidates := [W7c], sessionMap := [], readySessions := [] }

/-- Client underlay before first read with sole candidate (C7 witness
fixture). -/
def W7tB : TCPUnderlay := { W7tA with isClient := true }

/-- Underlay with initialized receive cipher (C7 witness fixture). -/
def W7tC : TCPUnderlay := { W7tA with recv := some W7c }

/-- Short input (C7 witness fixture). -/
def W7short : List Nat := List.replicate 10 0

/-- Long input (C7 witness fixture). -/
def W7input : List Nat := List.replicate 60 3

/-- Empty replay state (C7 witness fixture). -/
def W7rs : ReplayState := { cache := [], newSession := 0, knownSession := 0 }

/-- Concrete decrypt function producing a metadata block with the novel
protocol tag 10 (C2 fixture). -/
def W2dec : DecFn := fun c _ => some (10 :: List.replicate 31 0, c)

/-- Concrete receive cipher (C2 fixture). -/
def W2c : CipherState := { keyId := 1, nonceCtr := 0, implicitNonce := true, stateless := false }

/-- Concrete underlay with initialized receive cipher (C2 fixture). -/
def W2t : TCPUnderlay :=
  { isClient := false, mtu := 1500, hasConn := true, connClosed := false, done := false,
    send := none, recv := some W2c, candidates := [W2c], sessionMap := [], readySessions := [] }

/-- Empty replay state (C2 fixture). -/
def W2rs : ReplayState := { cache := [], newSession := 0, knownSession := 0 }

/-- Concrete 48-byte input (C2 fixture). -/
def W2input : List Nat := List.replicate 48 7

/-- Concrete decrypt function stripping the 16-byte tag (C3 fixture). -/
def W3dec : DecFn := fun c ct => some (ct.drop 16, c)

/-- Concrete receive cipher (C3 fixture). -/
def W3c : CipherState := { keyId := 1, nonceCtr := 0, implicitNonce := true, stateless := false }

/-- Concrete server underlay (C3 fixture). -/
def W3t : TCPUnderlay :=
  { isClient := false, mtu := 1500, hasConn := true, connClosed := false, done := false,
    send := none, recv := some W3c, candidates := [W3c], sessionMap := [], readySessions := [] }

/-- Empty replay state (C3 fixture). -/
def W3rs : ReplayState := { cache := [], newSession := 0, knownSession := 0 }

/-- Open-session request metadata with the reserved session ID 0 (C3
fixture). -/
def W3ss : sessionStruct :=
  { protocol := openSessionRequest, sessionID := 0, seq := 0, payloadLen := 0, suffixLen := 0, flags := 0 }

/-- Concrete input carrying the bad open request (C3 fixture). -/
def W3input : List Nat := List.replicate 16 7 ++ W3ss.Marshal

/-- Concrete decrypt function stripping the 16-byte tag (C4 fixture). -/
def W4dec : DecFn := fun c ct => some (ct.drop 16, c)

/-- Concrete receive cipher (C4 fixture). -/
def W4c : CipherState := { keyId := 1, nonceCtr := 0, implicitNonce := true, stateless := false }

/-- Concrete client underlay with an empty session table (C4 fixture). -/
def W4t : TCPUnderlay :=
  { isClient := true, mtu := 1500, hasConn := true, connClosed := false, done := false,
    send := none, recv := some W4c, candidates := [W4c], sessionMap := [], readySessions := [] }

/-- Empty replay state (C4 fixture). -/
def W4rs : ReplayState := { cache := [], newSession := 0, knownSession := 0 }

/-- Data-ack metadata addressed to the unknown session 9 (C4 fixture). -/
def W4das : dataAckStruct :=
  { protocol := dataServerToClient, sessionID := 9, seq := 0, ack := 0, windowSize := 0,
    prefixLen := 0, payloadLen := 0, suffixLen := 0 }

/-- Open-session response metadata addressed to the unknown session 9 (C4
fixture). -/
def W4ssResp : sessionStruct :=
  { protocol := openSessionResponse, sessionID := 9, seq := 0, payloadLen := 0, suffixLen := 0, flags := 0 }

/-- Close-session request metadata addressed to the unknown session 9 (C4
fixture). -/
def W4ssClose : sessionStruct :=
  { protocol := closeSessionRequest, sessionID := 9, seq := 0, payloadLen := 0, suffixLen := 0, flags := 0 }

/-- Input carrying the data-ack segment (C4 fixture). -/
def W4inputA : List Nat := List.replicate 16 7 ++ W4das.Marshal

/-- Input carrying the open-session response (C4 fixture). -/
def W4inputB : List Nat := List.replicate 16 7 ++ W4ssResp.Marshal

/-- Input carrying the close-session request (C4 fixture). -/
def W4inputC : List Nat := List.replicate 16 7 ++ W4ssClose.Marshal

/-- Claim C9: a block cipher whose `IsStateless` is true is rejected by
`NewTCPUnderlay` before any connection is dialed: for every network argument
the result is an error, so no TCP underlay is ever created with a stateless
cipher. -/
theorem C9_stateless_cipher_rejected (network : NetKind) (mtu : Nat)
    (block : CipherState) (h : block.IsStateless = true) :
    NewTCPUnderlay network mtu block = .err .unsupportedNetwork ∨
    NewTCPUnderlay network mtu block = .err .statelessCipher := by
  cases network <;> simp [NewTCPUnderlay, h]

/-- Witness for C9 at a concrete stateless cipher and the tcp network. -/
theorem C9_stateless_cipher_rejected_witness :
    NewTCPUnderlay .tcp 1500 { keyId := 0, nonceCtr := 0, implicitNonce := true, stateless := true } = .err .unsupportedNetwork ∨
    NewTCPUnderlay .tcp 1500 { keyId := 0, nonceCtr := 0, implicitNonce := true, stateless := true } = .err .statelessCipher :=
  C9_stateless_cipher_rejected .tcp 1500 { keyId := 0, nonceCtr := 0, implicitNonce := true, stateless := true } (by decide)

/-- Claim C8: whenever a `RemoveSession` call leaves the session table empty,
the underlay closes itself: the `done` latch is closed and the transport
connection is closed.  The hypothesis `hinv` is the reachability invariant
that a closed `done` latch implies a closed transport (the only code path
closing the latch also closes the transport). -/
theorem C8_remove_last_session_closes (t : TCPUnderlay) (sid : Nat)
    (hinv : t.done = true → t.connClosed = true)
    (h : (t.RemoveSession sid).sessionMap = []) :
    (t.RemoveSession sid).done = true ∧ (t.RemoveSession sid).connClosed = true := by
  obtain ⟨ic, m, hc, cc, dn, sd, rv, cand, sm, rdy⟩ := t
  simp only [TCPUnderlay.RemoveSession, TCPUnderlay.Close] at h ⊢
  by_cases hemp : (List.filter (fun e => e.1 != sid) sm).isEmpty = true
  · cases dn
    · simp [hemp]
    · have hcc : cc = true := hinv rfl
      subst hcc
      simp [hemp]
  · simp [hemp] at h
    simp only [List.isEmpty_eq_true, List.filter_eq_nil_iff] at hemp
    exact absurd (fun a hmem => by simpa using h a.1 a.2 (by simpa using hmem)) hemp

/-- Witness for C8: removing the only session of a concrete underlay. -/
theorem C8_remove_last_session_closes_witness :
    (TCPUnderlay.RemoveSession
      { isClient := false, mtu := 1500, hasConn := true, connClosed := false, done := false,
        send := none, recv := none, candidates := [],
        sessionMap := [(1, NewSession 1 false 1500)], readySessions := [] } 1).done = true ∧
    (TCPUnderlay.RemoveSession
      { isClient := false, mtu := 1500, hasConn := true, connClosed := false, done := false,
        send := none, recv := none, candidates := [],
        sessionMap := [(1, NewSession 1 false 1500)], readySessions := [] } 1).connClosed = true :=
  C8_remove_last_session_closes _ 1 (by decide) (by decide)

/-- Claim C6: `maybeInitSendBlockCipher` leaves an initialized send cipher
unchanged; on a client it clones the sole candidate; on a server with an
initialized receive cipher it clones the receive cipher and cycles
implicit-nonce mode off and on; on a server without a receive cipher it fails
and no send cipher is produced. -/
theorem C6_maybeInitSendBlockCipher_spec (t1 t2 t3 t4 : TCPUnderlay)
    (c c0 r : CipherState)
    (h1 : t1.send = some c)
    (h2s : t2.send = none) (h2c : t2.isClient = true) (h2cand : t2.candidates = [c0])
    (h3s : t3.send = none) (h3c : t3.isClient = false) (h3r : t3.recv = some r)
    (h4s : t4.send = none) (h4c : t4.isClient = false) (h4r : t4.recv = none) :
    maybeInitSendBlockCipher t1 = .ok t1 ∧
    maybeInitSendBlockCipher t2 = .ok { t2 with send := some c0.Clone } ∧
    maybeInitSendBlockCipher t3 =
      .ok { t3 with send := some ((r.Clone.SetImplicitNonceMode false).SetImplicitNonceMode true) } ∧
    maybeInitSendBlockCipher t4 = .err .recvCipherNil := by
  refine ⟨?_, ?_, ?_, ?_⟩
  · simp [maybeInitSendBlockCipher, h1]
  · simp [maybeInitSendBlockCipher, h2s, h2c, h2cand]
  · simp [maybeInitSendBlockCipher, h3s, h3c, h3r]
  · simp [maybeInitSendBlockCipher, h4s, h4c, h4r]

/-- Witness for C6 at four concrete underlays covering the four cases. -/
theorem C6_maybeInitSendBlockCipher_spec_witness :
    maybeInitSendBlockCipher W6a = .ok W6a ∧
    maybeInitSendBlockCipher W6b =
      .ok { W6b with send := some (CipherState.Clone { keyId := 5, nonceCtr := 9, implicitNonce := true, stateless := false }) } ∧
    maybeInitSendBlockCipher W6c =
      .ok { W6c with send := some ((CipherState.Clone { keyId := 7, nonceCtr := 2, implicitNonce := true, stateless := false }
        |>.SetImplicitNonceMode false).SetImplicitNonceMode true) } ∧
    maybeInitSendBlockCipher W6d = .err .recvCipherNil :=
  C6_maybeInitSendBlockCipher_spec W6a W6b W6c W6d _ _ _ rfl rfl rfl rfl rfl rfl rfl rfl rfl rfl

/-- Claim C10: `writeOneSegment` fails with the null-pointer error on a nil
segment and with the invalid-argument error on a segment whose metadata is
neither a session-control struct nor a data-ack struct; in both cases the
underlay (in particular its send cipher) is returned unchanged and no bytes
are handed to the transport (the error outcome of the write path carries no
written bytes). -/
theorem C10_writeOneSegment_rejects (enc : EncFn) (t : TCPUnderlay) (sg : segment)
    (p : Nat) (r1 r2 : Fin 255) (h : sg.metadata = .other p) :
    writeOneSegment enc t none r1 r2 = .err .nullPointer t ∧
    writeOneSegment enc t (some sg) r1 r2 = .err .invalidArgument t := by
  constructor
  · rfl
  · simp [writeOneSegment, h, toSessionStruct, toDataAckStruct]

/-- Witness for C10 at a concrete underlay and a foreign metadata value. -/
theorem C10_writeOneSegment_rejects_witness :
    writeOneSegment (fun c pt => some (pt, c))
      { isClient := true, mtu := 1, hasConn := true, connClosed := false, done := false,
        send := none, recv := none, candidates := [], sessionMap := [], readySessions := [] }
      none ⟨3, by decide⟩ ⟨4, by decide⟩ =
      .err .nullPointer
        { isClient := true, mtu := 1, hasConn := true, connClosed := false, done := false,
          send := none, recv := none, candidates := [], sessionMap := [], readySessions := [] } ∧
    writeOneSegment (fun c pt => some (pt, c))
      { isClient := true, mtu := 1, hasConn := true, connClosed := false, done := false,
        send := none, recv := none, candidates := [], sessionMap := [], readySessions := [] }
      (some { metadata := .other 42, payload := [] }) ⟨3, by decide⟩ ⟨4, by decide⟩ =
      .err .invalidArgument
        { isClient := true, mtu := 1, hasConn := true, connClosed := false, done := false,
          send := none, recv := none, candidates := [], sessionMap := [], readySessions := [] } :=
  C10_writeOneSegment_rejects (fun c pt => some (pt, c)) _ _ 42 ⟨3, by decide⟩ ⟨4, by decide⟩ rfl

/-- Claim C5: for a non-nil segment, the bytes handed to the transport in the
single write call are exactly: for session-control metadata, encrypted
metadata, then the encrypted payload when it is non-empty, then the suffix
padding; for data-ack metadata, encrypted metadata, prefix padding, the
encrypted payload when non-empty, then suffix padding.  The padding lengths
are the `rng.Intn(255)` draws `r1` and `r2` (values in `[0, 255)` by type) and
are recorded in the metadata before it is marshalled and encrypted. -/
theorem C5_writeOneSegment_layout (enc : EncFn) (t : TCPUnderlay) (c : CipherState)
    (sgA sgB sgC sgD : segment) (ss : sessionStruct) (das : dataAckStruct)
    (r1 r2 : Fin 255) (emA emB emC emD epA epC : List Nat)
    (cA1 cA2 cB1 cC1 cC2 cD1 : CipherState)
    (hsend : t.send = some c)
    (hA : sgA.metadata = .session ss) (hAp : sgA.payload ≠ [])
    (hAm : enc c (sessionStruct.Marshal { ss with suffixLen := r1.val }) = some (emA, cA1))
    (hAe : enc cA1 sgA.payload = some (epA, cA2))
    (hB : sgB.metadata = .session ss) (hBp : sgB.payload = [])
    (hBm : enc c (sessionStruct.Marshal { ss with suffixLen := r1.val }) = some (emB, cB1))
    (hC : sgC.metadata = .dataAck das) (hCp : sgC.payload ≠ [])
    (hCm : enc c (dataAckStruct.Marshal { das with prefixLen := r1.val, suffixLen := r2.val }) = some (emC, cC1))
    (hCe : enc cC1 sgC.payload = some (epC, cC2))
    (hD : sgD.metadata = .dataAck das) (hDp : sgD.payload = [])
    (hDm : enc c (dataAckStruct.Marshal { das with prefixLen := r1.val, suffixLen := r2.val }) = some (emD, cD1)) :
    writeOneSegment enc t (some sgA) r1 r2 =
      .ok { t with send := some cA2 } (emA ++ epA ++ newPadding r1.val) ∧
    writeOneSegment enc t (some sgB) r1 r2 =
      .ok { t with send := some cB1 } (emB ++ newPadding r1.val) ∧
    writeOneSegment enc t (some sgC) r1 r2 =
      .ok { t with send := some cC2 } (emC ++ newPadding r1.val ++ epC ++ newPadding r2.val) ∧
    writeOneSegment enc t (some sgD) r1 r2 =
      .ok { t with send := some cD1 } (emD ++ newPadding r1.val ++ newPadding r2.val) := by
  have hinit : maybeInitSendBlockCipher t = .ok t := by
    simp [maybeInitSendBlockCipher, hsend]
  refine ⟨?_, ?_, ?_, ?_⟩
  · simp [writeOneSegment, hA, toSessionStruct, hinit, hsend, hAm, hAe,
      List.length_pos, hAp]
  · simp [writeOneSegment, hB, toSessionStruct, hinit, hsend, hBm, hBp]
  · simp [writeOneSegment, hC, toSessionStruct, toDataAckStruct, hinit, hsend, hCm, hCe,
      List.length_pos, hCp]
  · simp [writeOneSegment, hD, toSessionStruct, toDataAckStruct, hinit, hsend, hDm, hDp]

/-- Witness for C5 at concrete segments of all four shapes. -/
theorem C5_writeOneSegment_layout_witness :
    writeOneSegment W5enc W5t (some W5sgA) ⟨5, by decide⟩ ⟨7, by decide⟩ =
      .ok { W5t with send := some W5c2 } (W5emA ++ W5ep ++ newPadding 5) ∧
    writeOneSegment W5enc W5t (some W5sgB) ⟨5, by decide⟩ ⟨7, by decide⟩ =
      .ok { W5t with send := some W5c1 } (W5emA ++ newPadding 5) ∧
    writeOneSegment W5enc W5t (some W5sgC) ⟨5, by decide⟩ ⟨7, by decide⟩ =
      .ok { W5t with send := some W5c2 } (W5emC ++ newPadding 5 ++ W5epC ++ newPadding 7) ∧
    writeOneSegment W5enc W5t (some W5sgD) ⟨5, by decide⟩ ⟨7, by decide⟩ =
      .ok { W5t with send := some W5c1 } (W5emC ++ newPadding 5 ++ newPadding 7) :=
  C5_writeOneSegment_layout W5enc W5t W5c W5sgA W5sgB W5sgC W5sgD W5ss W5das
    ⟨5, by decide⟩ ⟨7, by decide⟩ W5emA W5emA W5emC W5emC W5ep W5epC
    W5c1 W5c2 W5c1 W5c1 W5c2 W5c1
    rfl rfl (by decide) rfl rfl rfl rfl rfl rfl (by decide) rfl rfl rfl rfl rfl

/-- Claim C1: every segment read queries the replay cache with the first
`DefaultOverhead` bytes of the metadata read buffer.  On a first read (receive
cipher not yet initialized) a duplicate tag increments the `NewSession`
counter and `readOneSegment` fails with the replay error, which terminates the
event loop; on a later read a duplicate tag only increments the
`KnownSession` counter and processing proceeds normally (the result is the
decryption stage applied to the same buffer with only that counter bumped). -/
theorem C1_replay_cache_check (dec : DecFn) (t1 t2 : TCPUnderlay) (c : CipherState)
    (rs : ReplayState) (input : List Nat)
    (h1 : t1.recv = none) (h1done : t1.done = false)
    (h2 : t2.recv = some c)
    (hlen : metadataLength + DefaultOverhead + DefaultNonceSize ≤ input.length)
    (hdup : rs.cache.contains (input.take DefaultOverhead) = true) :
    readOneSegment dec t1 rs input =
      .err .replayDetected t1
        { cache := input.take DefaultOverhead :: rs.cache,
          newSession := rs.newSession + 1, knownSession := rs.knownSession } ∧
    runEventLoopStep dec false t1 rs input =
      .exitErr (.readFailed .replayDetected) t1
        { cache := input.take DefaultOverhead :: rs.cache,
          newSession := rs.newSession + 1, knownSession := rs.knownSession } ∧
    readOneSegment dec t2 rs input =
      decryptMetadata dec t2
        { cache := input.take DefaultOverhead :: rs.cache,
          newSession := rs.newSession, knownSession := rs.knownSession + 1 }
        (input.take (metadataLength + DefaultOverhead))
        (input.drop (metadataLength + DefaultOverhead)) := by
  obtain ⟨cache, ns, ks⟩ := rs
  simp only [ReplayState.cache] at hdup
  have hlen60 : (60 : Nat) ≤ input.length := by
    simpa [metadataLength, DefaultOverhead, DefaultNonceSize] using hlen
  have h60 : ¬ input.length < 60 := by omega
  have h48 : ¬ input.length < 48 := by omega
  have hdup2 : List.take 16 input ∈ cache := by
    simpa [DefaultOverhead] using hdup
  have ha : readOneSegment dec t1 ⟨cache, ns, ks⟩ input =
      .err .replayDetected t1
        { cache := input.take DefaultOverhead :: cache, newSession := ns + 1, knownSession := ks } := by
    simp [readOneSegment, ReplayState.isDuplicate, h1, h60, List.take_take,
      metadataLength, DefaultOverhead, DefaultNonceSize, hdup2]
  refine ⟨ha, ?_, ?_⟩
  · simp [runEventLoopStep, h1done, ha]
  · simp [readOneSegment, ReplayState.isDuplicate, h2, h48, List.take_take,
      metadataLength, DefaultOverhead, DefaultNonceSize, hdup2]

/-- Witness for C1 at a concrete duplicated tag. -/
theorem C1_replay_cache_check_witness :
    readOneSegment W1dec W1t1 W1rs W1input =
      .err .replayDetected W1t1
        { cache := W1input.take DefaultOverhead :: W1rs.cache,
          newSession := W1rs.newSession + 1, knownSession := W1rs.knownSession } ∧
    runEventLoopStep W1dec false W1t1 W1rs W1input =
      .exitErr (.readFailed .replayDetected) W1t1
        { cache := W1input.take DefaultOverhead :: W1rs.cache,
          newSession := W1rs.newSession + 1, knownSession := W1rs.knownSession } ∧
    readOneSegment W1dec W1t2 W1rs W1input =
      decryptMetadata W1dec W1t2
        { cache := W1input.take DefaultOverhead :: W1rs.cache,
          newSession := W1rs.newSession, knownSession := W1rs.knownSession + 1 }
        (W1input.take (metadataLength + DefaultOverhead))
        (W1input.drop (metadataLength + DefaultOverhead)) :=
  C1_replay_cache_check W1dec W1t1 W1t2 W1c W1rs W1input rfl rfl rfl (by decide) (by decide)

/-- Claim C7: `readOneSegment` reads exactly `metadataLength + DefaultOverhead`
bytes of encrypted metadata plus `DefaultNonceSize` exactly when the receive
cipher is uninitialized (a shorter input is a read failure, and on success the
continuation consumes exactly that prefix); an uninitialized client receive
cipher is initialized as a clone of the sole candidate before decrypting; and
a decrypted metadata block whose length differs from `metadataLength` makes
`readOneSegment` fail with the framing error, which terminates the event
loop. -/
theorem C7_readOneSegment_lengths (dec : DecFn) (tA tB tC : TCPUnderlay)
    (c cc c' : CipherState) (dm inputShort input : List Nat) (rs : ReplayState)
    (hA : tA.recv = none)
    (hAlen : inputShort.length < metadataLength + DefaultOverhead + DefaultNonceSize)
    (hB : tB.recv = none) (hBc : tB.isClient = true) (hBcand : tB.candidates = [c])
    (hlen : metadataLength + DefaultOverhead + DefaultNonceSize ≤ input.length)
    (hnodup : rs.cache.contains (input.take DefaultOverhead) = false)
    (hC : tC.recv = some cc) (hCdone : tC.done = false)
    (hdec : dec cc (input.take (metadataLength + DefaultOverhead)) = some (dm, c'))
    (hdm : dm.length ≠ metadataLength) :
    readOneSegment dec tA rs inputShort = .err .ioFailed tA rs ∧
    readOneSegment dec tB rs input =
      decryptWith dec { tB with recv := some c.Clone } c.Clone
        { rs with cache := input.take DefaultOverhead :: rs.cache }
        (input.take (metadataLength + DefaultOverhead + DefaultNonceSize))
        (input.drop (metadataLength + DefaultOverhead + DefaultNonceSize)) ∧
    readOneSegment dec tC rs input =
      .err .framingError { tC with recv := some c' }
        { rs with cache := input.take DefaultOverhead :: rs.cache } ∧
    runEventLoopStep dec false tC rs input =
      .exitErr (.readFailed .framingError) { tC with recv := some c' }
        { rs with cache := input.take DefaultOverhead :: rs.cache } := by
  obtain ⟨cache, ns, ks⟩ := rs
  simp only [ReplayState.cache] at hnodup
  simp only [metadataLength, DefaultOverhead, DefaultNonceSize] at hAlen hlen hdec hdm
  have h60 : ¬ input.length < 60 := by omega
  have h48 : ¬ input.length < 48 := by omega
  have hnodup2 : ¬ List.take 16 input ∈ cache := by
    simpa [DefaultOverhead] using hnodup
  have hc : readOneSegment dec tC ⟨cache, ns, ks⟩ input =
      .err .framingError { tC with recv := some c' }
        { cache := input.take 16 :: cache, newSession := ns, knownSession := ks } := by
    simp [readOneSegment, decryptMetadata, decryptWith, dispatchMetadata,
      ReplayState.isDuplicate, hC, h48, List.take_take, metadataLength,
      DefaultOverhead, DefaultNonceSize, hnodup2, hdec, hdm]
  refine ⟨?_, ?_, ?_, ?_⟩
  · simp [readOneSegment, hA, metadataLength, DefaultOverhead, DefaultNonceSize, hAlen]
  · simp [readOneSegment, decryptMetadata, ReplayState.isDuplicate, hB, hBc, hBcand,
      h60, List.take_take, metadataLength, DefaultOverhead, DefaultNonceSize, hnodup2]
  · simpa [metadataLength, DefaultOverhead] using hc
  · simp [runEventLoopStep, hCdone, hc, metadataLength, DefaultOverhead]

/-- Witness for C7 at concrete inputs. -/
theorem C7_readOneSegment_lengths_witness :
    readOneSegment W7dec W7tA W7rs W7short = .err .ioFailed W7tA W7rs ∧
    readOneSegment W7dec W7tB W7rs W7input =
      decryptWith W7dec { W7tB with recv := some W7c.Clone } W7c.Clone
        { W7rs with cache := W7input.take DefaultOverhead :: W7rs.cache }
        (W7input.take (metadataLength + DefaultOverhead + DefaultNonceSize))
        (W7input.drop (metadataLength + DefaultOverhead + DefaultNonceSize)) ∧
    readOneSegment W7dec W7tC W7rs W7input =
      .err .framingError { W7tC with recv := some W7c }
        { W7rs with cache := W7input.take DefaultOverhead :: W7rs.cache } ∧
    runEventLoopStep W7dec false W7tC W7rs W7input =
      .exitErr (.readFailed .framingError) { W7tC with recv := some W7c }
        { W7rs with cache := W7input.take DefaultOverhead :: W7rs.cache } :=
  C7_readOneSegment_lengths W7dec W7tA W7tB W7tC W7c W7c W7c (List.replicate 31 3)
    W7short W7input W7rs rfl (by decide) rfl rfl rfl (by decide) (by decide) rfl rfl
    (by decide) (by decide)

/-- A data-ack protocol tag is never a session-control protocol tag. -/
theorem isSessionProtocol_false_of_dataAck (p : Nat) (h : isDataAckProtocol p = true) :
    isSessionProtocol p = false := by
  simp only [isDataAckProtocol, dataClientToServer, dataServerToClient, ackClientToServer,
    ackServerToClient, Bool.or_eq_true, beq_iff_eq] at h
  rcases h with ((h | h) | h) | h <;> subst h <;> decide

/-- Claim C2 is false on the code at this concrete input: a valid-ciphertext
segment whose decrypted metadata carries the novel protocol tag 10 is not
skipped with the loop continuing; instead `readOneSegment` fails with the
unknown-protocol error and the event-loop iteration exits with that error,
terminating the underlay. -/
theorem C2_counterexample :
    runEventLoopStep W2dec false W2t W2rs W2input =
      .exitErr (.readFailed (.unknownProtocol 10)) W2t
        { cache := [List.replicate 16 7], newSession := 0, knownSession := 0 } := by
  decide

/-- Claim C2 amended: a received segment whose decrypted metadata carries a
protocol tag belonging to neither the session-control class nor the data-ack
class makes `readOneSegment` fail with the unknown-protocol error, and the
event loop terminates with that error; the segment is not delivered to any
session. -/
theorem C2_amended_unknown_protocol (dec : DecFn) (t : TCPUnderlay) (rs : ReplayState)
    (c c' : CipherState) (input dm : List Nat) (p : Nat)
    (hdone : t.done = false)
    (hrecv : t.recv = some c)
    (hlen : metadataLength + DefaultOverhead ≤ input.length)
    (hnodup : rs.cache.contains (input.take DefaultOverhead) = false)
    (hdec : dec c (input.take (metadataLength + DefaultOverhead)) = some (dm, c'))
    (hdml : dm.length = metadataLength)
    (hp : dm.headD 0 = p)
    (hps : isSessionProtocol p = false) (hpd : isDataAckProtocol p = false) :
    readOneSegment dec t rs input =
      .err (.unknownProtocol p) { t with recv := some c' }
        { rs with cache := input.take DefaultOverhead :: rs.cache } ∧
    runEventLoopStep dec false t rs input =
      .exitErr (.readFailed (.unknownProtocol p)) { t with recv := some c' }
        { rs with cache := input.take DefaultOverhead :: rs.cache } := by
  obtain ⟨cache, ns, ks⟩ := rs
  simp only [ReplayState.cache] at hnodup
  simp only [metadataLength, DefaultOverhead] at hlen hdec hdml
  have h48 : ¬ input.length < 48 := by omega
  have hnodup2 : ¬ List.take 16 input ∈ cache := by
    simpa [DefaultOverhead] using hnodup
  subst hp
  simp only [List.headD_eq_head?] at hps hpd
  have ha : readOneSegment dec t ⟨cache, ns, ks⟩ input =
      .err (.unknownProtocol (dm.headD 0)) { t with recv := some c' }
        { cache := input.take 16 :: cache, newSession := ns, knownSession := ks } := by
    simp [readOneSegment, decryptMetadata, decryptWith, dispatchMetadata,
      ReplayState.isDuplicate, hrecv, h48, List.take_take, metadataLength,
      DefaultOverhead, DefaultNonceSize, hnodup2, hdec, hdml, hps, hpd, List.headD_eq_head?]
  refine ⟨by simpa [metadataLength, DefaultOverhead] using ha, ?_⟩
  simp [runEventLoopStep, hdone, ha, metadataLength, DefaultOverhead]

/-- Witness for the amended C2 at the concrete tag-10 input. -/
theorem C2_amended_unknown_protocol_witness :
    readOneSegment W2dec W2t W2rs W2input =
      .err (.unknownProtocol 10) W2t
        { W2rs with cache := W2input.take DefaultOverhead :: W2rs.cache } ∧
    runEventLoopStep W2dec false W2t W2rs W2input =
      .exitErr (.readFailed (.unknownProtocol 10)) W2t
        { W2rs with cache := W2input.take DefaultOverhead :: W2rs.cache } :=
  C2_amended_unknown_protocol W2dec W2t W2rs W2c W2c W2input (10 :: List.replicate 31 0) 10
    rfl rfl (by decide) (by decide) rfl (by decide) rfl (by decide) (by decide)

/-- Claim C3 is false on the code at this concrete input: an
`openSessionRequest` with the reserved session ID 0 does not leave the
underlay running; `onOpenSessionRequest` returns an error and the event-loop
iteration exits with that error, terminating the underlay. -/
theorem C3_counterexample :
    runEventLoopStep W3dec false W3t W3rs W3input =
      .exitErr (.openSessionRequestFailed .reservedSessionID) W3t
        { cache := [List.replicate 16 7], newSession := 0, knownSession := 0 } := by
  decide

/-- Claim C3 amended: a server-side `openSessionRequest` whose session ID is 0
(reserved) or already present in the session table is rejected without
creating a session (the underlay state is the one produced by the read), and
the handler error terminates the event loop instead of the underlay
continuing. -/
theorem C3_amended_open_request_rejected (dec : DecFn) (t : TCPUnderlay) (rs : ReplayState)
    (input : List Nat) (seg : segment) (t1 : TCPUnderlay) (rs1 : ReplayState)
    (rest : List Nat) (ss : sessionStruct)
    (hdone : t.done = false)
    (hread : readOneSegment dec t rs input = .ok seg t1 rs1 rest)
    (hm : seg.metadata = .session ss)
    (hp : ss.protocol = openSessionRequest)
    (hsrv : t1.isClient = false)
    (hbad : ss.sessionID = 0 ∨ (lookupSession t1.sessionMap ss.sessionID).isSome = true) :
    runEventLoopStep dec false t rs input =
      .exitErr (.openSessionRequestFailed
        (if ss.sessionID = 0 then .reservedSessionID else .sessionIDInUse)) t1 rs1 := by
  have hop : onOpenSessionRequest t1 seg =
      .err (if ss.sessionID = 0 then .reservedSessionID else .sessionIDInUse) := by
    by_cases hz : ss.sessionID = 0
    · simp [onOpenSessionRequest, hsrv, hm, toSessionStruct, hz]
    · rcases hbad with h0 | hin
      · exact absurd h0 hz
      · simp [onOpenSessionRequest, hsrv, hm, toSessionStruct, hz, hin]
  simp [runEventLoopStep, hdone, hread, segment.Protocol, hm, Metadata.Protocol, hp, hop,
    isSessionProtocol, isDataAckProtocol, openSessionRequest, openSessionResponse,
    closeSessionRequest, closeSessionResponse, closeConnRequest, closeConnResponse,
    dataClientToServer, dataServerToClient, ackClientToServer, ackServerToClient]

/-- Witness for the amended C3 at the concrete reserved-ID open request. -/
theorem C3_amended_open_request_rejected_witness :
    runEventLoopStep W3dec false W3t W3rs W3input =
      .exitErr (.openSessionRequestFailed .reservedSessionID) W3t
        { cache := [List.replicate 16 7], newSession := 0, knownSession := 0 } :=
  C3_amended_open_request_rejected W3dec W3t W3rs W3input
    { metadata := .session W3ss, payload := [] } W3t
    { cache := [List.replicate 16 7], newSession := 0, knownSession := 0 } [] W3ss
    rfl (by decide) rfl rfl rfl (Or.inl rfl)

/-- Claim C4 is false on the code at this concrete input: an
`openSessionResponse` addressed to a session ID that is not in the session
table is not logged and dropped with the loop continuing; the handler returns
the session-not-found error and the event-loop iteration exits with that
error, terminating the underlay. -/
theorem C4_counterexample :
    runEventLoopStep W4dec false W4t W4rs W4inputB =
      .exitErr (.openSessionResponseFailed .sessionNotFound) W4t
        { cache := [List.replicate 16 7], newSession := 0, knownSession := 0 } := by
  decide

/-- Claim C4 amended: a data-ack segment addressed to an unregistered session
is dropped and the event loop continues; but an `openSessionResponse` or a
close-session segment addressed to an unregistered session makes the handler
return an error, which terminates the event loop. -/
theorem C4_amended_unknown_session (dec : DecFn)
    (tA : TCPUnderlay) (rsA : ReplayState) (inputA : List Nat) (segA : segment)
    (tA1 : TCPUnderlay) (rsA1 : ReplayState) (restA : List Nat) (das : dataAckStruct)
    (tB : TCPUnderlay) (rsB : ReplayState) (inputB : List Nat) (segB : segment)
    (tB1 : TCPUnderlay) (rsB1 : ReplayState) (restB : List Nat) (ssB : sessionStruct)
    (tC : TCPUnderlay) (rsC : ReplayState) (inputC : List Nat) (segC : segment)
    (tC1 : TCPUnderlay) (rsC1 : ReplayState) (restC : List Nat) (ssC : sessionStruct)
    (hAdone : tA.done = false)
    (hAread : readOneSegment dec tA rsA inputA = .ok segA tA1 rsA1 restA)
    (hAm : segA.metadata = .dataAck das)
    (hAda : isDataAckProtocol das.protocol = true)
    (hAun : lookupSession tA1.sessionMap das.sessionID = none)
    (hBdone : tB.done = false)
    (hBread : readOneSegment dec tB rsB inputB = .ok segB tB1 rsB1 restB)
    (hBm : segB.metadata = .session ssB)
    (hBp : ssB.protocol = openSessionResponse)
    (hBcl : tB1.isClient = true)
    (hBun : lookupSession tB1.sessionMap ssB.sessionID = none)
    (hCdone : tC.done = false)
    (hCread : readOneSegment dec tC rsC inputC = .ok segC tC1 rsC1 restC)
    (hCm : segC.metadata = .session ssC)
    (hCp : ssC.protocol = closeSessionRequest)
    (hCun : lookupSession tC1.sessionMap ssC.sessionID = none) :
    runEventLoopStep dec false tA rsA inputA = .next tA1 rsA1 restA ∧
    runEventLoopStep dec false tB rsB inputB =
      .exitErr (.openSessionResponseFailed .sessionNotFound) tB1 rsB1 ∧
    runEventLoopStep dec false tC rsC inputC =
      .exitErr (.closeSessionFailed .sessionNotFound) tC1 rsC1 := by
  refine ⟨?_, ?_, ?_⟩
  · have hns := isSessionProtocol_false_of_dataAck das.protocol hAda
    simp [runEventLoopStep, hAdone, hAread, segment.Protocol, hAm, Metadata.Protocol,
      hns, hAda, toDataAckStruct, hAun]
  · have hob : onOpenSessionResponse tB1 segB = .err .sessionNotFound := by
      simp [onOpenSessionResponse, hBcl, hBm, toSessionStruct, hBun]
    simp [runEventLoopStep, hBdone, hBread, segment.Protocol, hBm, Metadata.Protocol, hBp, hob,
      isSessionProtocol, isDataAckProtocol, openSessionRequest, openSessionResponse,
      closeSessionRequest, closeSessionResponse, closeConnRequest, closeConnResponse,
      dataClientToServer, dataServerToClient, ackClientToServer, ackServerToClient]
  · have hoc : onCloseSession tC1 segC = .err .sessionNotFound := by
      simp [onCloseSession, hCm, toSessionStruct, hCun]
    simp [runEventLoopStep, hCdone, hCread, segment.Protocol, hCm, Metadata.Protocol, hCp, hoc,
      isSessionProtocol, isDataAckProtocol, openSessionRequest, openSessionResponse,
      closeSessionRequest, closeSessionResponse, closeConnRequest, closeConnResponse,
      dataClientToServer, dataServerToClient, ackClientToServer, ackServerToClient]

/-- Witness for the amended C4 at three concrete segments addressed to the
unknown session 9. -/
theorem C4_amended_unknown_session_witness :
    runEventLoopStep W4dec false W4t W4rs W4inputA = .next W4t
      { cache := [List.replicate 16 7], newSession := 0, knownSession := 0 } [] ∧
    runEventLoopStep W4dec false W4t W4rs W4inputB =
      .exitErr (.openSessionResponseFailed .sessionNotFound) W4t
        { cache := [List.replicate 16 7], newSession := 0, knownSession := 0 } ∧
    runEventLoopStep W4dec false W4t W4rs W4inputC =
      .exitErr (.closeSessionFailed .sessionNotFound) W4t
        { cache := [List.replicate 16 7], newSession := 0, knownSession := 0 } :=
  C4_amended_unknown_session W4dec
    W4t W4rs W4inputA { metadata := .dataAck W4das, payload := [] } W4t
    { cache := [List.replicate 16 7], newSession := 0, knownSession := 0 } [] W4das
    W4t W4rs W4inputB { metadata := .session W4ssResp, payload := [] } W4t
    { cache := [List.replicate 16 7], newSession := 0, knownSession := 0 } [] W4ssResp
    W4t W4rs W4inputC { metadata := .session W4ssClose, payload := [] } W4t
    { cache := [List.replicate 16 7], newSession := 0, knownSession := 0 } [] W4ssClose
    rfl (by decide) rfl (by decide) rfl
    rfl (by decide) rfl rfl rfl rfl
    rfl (by decide) rfl rfl rfl

end Mieru
